import Mathlib

/-!
Shallow embedding of the IFT-1004 DuProprio application
(modules utilitaires, gestionnaire_donnees, gestionnaire_utilisateurs,
gestionnaire_proprietes), followed by theorems settling the spec claims.

File I/O becomes explicit state passing over an `Etat` record holding the
content of the three backing files; `none` models a missing file.
Interactive `input()` values become function parameters holding the raw
line read, and the `.strip()` calls of the source are kept in the
functions that perform them.
-/

/-! ## Python string primitives used by the source -/

/-- Whitespace recognized by the Python `str.strip` default (ASCII part). -/
def estEspacePython (c : Char) : Bool :=
  c = ' ' || c = '\t' || c = '\n' || c = '\x0d' || c = '\x0b' || c = '\x0c'

/-- Model of the Python `str.strip()` call: drop leading and trailing
whitespace characters. -/
def pyStrip (s : String) : String :=
  String.mk (((s.data.dropWhile estEspacePython).reverse.dropWhile estEspacePython).reverse)

/-- Python truthiness of an optional string (`None` and the empty string
are falsy, every other string is truthy). -/
def pyVraiOptStr : Option String → Bool
  | none => false
  | some s => !(s = "")

/-! ## SHA-256 (the `hashlib.sha256(...).hexdigest()` call of `utilitaires`) -/

/-- Truncation to a 32-bit machine word. -/
def mot32 (n : Nat) : Nat := n % 4294967296

/-- Right rotation of a 32-bit word by `b` bits. -/
def rot32 (b n : Nat) : Nat := mot32 ((n >>> b) ||| (n <<< (32 - b)))

/-- SHA-256 choice function. -/
def chx (x y z : Nat) : Nat := (x &&& y) ^^^ ((x ^^^ 4294967295) &&& z)

/-- SHA-256 majority function. -/
def majx (x y z : Nat) : Nat := (x &&& y) ^^^ (x &&& z) ^^^ (y &&& z)

/-- SHA-256 big sigma 0. -/
def grandeSigma0 (x : Nat) : Nat := rot32 2 x ^^^ rot32 13 x ^^^ rot32 22 x

/-- SHA-256 big sigma 1. -/
def grandeSigma1 (x : Nat) : Nat := rot32 6 x ^^^ rot32 11 x ^^^ rot32 25 x

/-- SHA-256 small sigma 0. -/
def petiteSigma0 (x : Nat) : Nat := rot32 7 x ^^^ rot32 18 x ^^^ (x >>> 3)

/-- SHA-256 small sigma 1. -/
def petiteSigma1 (x : Nat) : Nat := rot32 17 x ^^^ rot32 19 x ^^^ (x >>> 10)

/-- The 64 SHA-256 round constants, written in decimal. -/
def constantesK : List Nat :=
  [1116352408, 1899447441, 3049323471, 3921009573,
   961987163, 1508970993, 2453635748, 2870763221,
   3624381080, 310598401, 607225278, 1426881987,
   1925078388, 2162078206, 2614888103, 3248222580,
   3835390401, 4022224774, 264347078, 604807628,
   770255983, 1249150122, 1555081692, 1996064986,
   2554220882, 2821834349, 2952996808, 3210313671,
   3336571891, 3584528711, 113926993, 338241895,
   666307205, 773529912, 1294757372, 1396182291,
   1695183700, 1986661051, 2177026350, 2456956037,
   2730485921, 2820302411, 3259730800, 3345764771,
   3516065817, 3600352804, 4094571909, 275423344,
   430227734, 506948616, 659060556, 883997877,
   958139571, 1322822218, 1537002063, 1747873779,
   1955562222, 2024104815, 2227730452, 2361852424,
   2428436474, 2756734187, 3204031479, 3329325298]

/-- The eight 32-bit working variables of the SHA-256 compression state,
also used for the running hash value. -/
structure MotsHachage where
  m0 : Nat
  m1 : Nat
  m2 : Nat
  m3 : Nat
  m4 : Nat
  m5 : Nat
  m6 : Nat
  m7 : Nat
deriving DecidableEq

/-- SHA-256 initial hash value, written in decimal. -/
def valeursInitiales : MotsHachage :=
  ⟨1779033703, 3144134277, 1013904242, 2773480762,
   1359893119, 2600822924, 528734635, 1541459225⟩

/-- One SHA-256 round on the working variables with round constant `k`
and schedule word `w`. -/
def ronde (s : MotsHachage) (k w : Nat) : MotsHachage :=
  let t1 := mot32 (s.m7 + grandeSigma1 s.m4 + chx s.m4 s.m5 s.m6 + k + w)
  let t2 := mot32 (grandeSigma0 s.m0 + majx s.m0 s.m1 s.m2)
  ⟨mot32 (t1 + t2), s.m0, s.m1, s.m2, mot32 (s.m3 + t1), s.m4, s.m5, s.m6⟩

/-- Apply the 64 rounds, consuming the zipped constants and schedule. -/
def rondes (s : MotsHachage) : List (Nat × Nat) → MotsHachage
  | [] => s
  | (k, w) :: reste => rondes (ronde s k w) reste

/-- Extend the 16 message words by `n` further schedule words. -/
def etendreMots (w : List Nat) : Nat → List Nat
  | 0 => w
  | n + 1 =>
      let w2 := etendreMots w n
      let i := w2.length
      w2 ++ [mot32 (petiteSigma1 (w2.getD (i - 2) 0) + w2.getD (i - 7) 0 +
        petiteSigma0 (w2.getD (i - 15) 0) + w2.getD (i - 16) 0)]

/-- The 16 big-endian 32-bit words of a 64-byte block. -/
def motsDuBloc (bloc : List Nat) : List Nat :=
  (List.range 16).map fun i =>
    (bloc.getD (4 * i) 0) * 16777216 + (bloc.getD (4 * i + 1) 0) * 65536 +
    (bloc.getD (4 * i + 2) 0) * 256 + bloc.getD (4 * i + 3) 0

/-- Compress one 64-byte block into the running hash value. -/
def compresserBloc (h : MotsHachage) (bloc : List Nat) : MotsHachage :=
  let ws := etendreMots (motsDuBloc bloc) 48
  let s := rondes h (constantesK.zip ws)
  ⟨mot32 (h.m0 + s.m0), mot32 (h.m1 + s.m1), mot32 (h.m2 + s.m2), mot32 (h.m3 + s.m3),
   mot32 (h.m4 + s.m4), mot32 (h.m5 + s.m5), mot32 (h.m6 + s.m6), mot32 (h.m7 + s.m7)⟩

/-- The `n` big-endian bytes of a number (most significant first). -/
def octetsBE : Nat → Nat → List Nat
  | 0, _ => []
  | n + 1, v => octetsBE n (v / 256) ++ [v % 256]

/-- SHA-256 padding: append `0x80`, zero bytes up to 56 mod 64, then the
bit length on 8 bytes. -/
def bourrer (message : List Nat) : List Nat :=
  let l := message.length
  let zeros := (64 - (l + 9) % 64) % 64
  message ++ [128] ++ List.replicate zeros 0 ++ octetsBE 8 (8 * l)

/-- Split a padded message into its 64-byte blocks. -/
def decouperBlocs (l : List Nat) : List (List Nat) :=
  (List.range (l.length / 64)).map fun i => (l.drop (64 * i)).take 64

/-- SHA-256 of a byte sequence. -/
def sha256 (message : List Nat) : MotsHachage :=
  (decouperBlocs (bourrer message)).foldl compresserBloc valeursInitiales

/-- Whether a character is a lowercase hexadecimal digit: a decimal
digit (codes 48 to 57) or a letter from a to f (codes 97 to 102). -/
def estChiffreHex (c : Char) : Bool :=
  (48 ≤ c.toNat && c.toNat ≤ 57) || (97 ≤ c.toNat && c.toNat ≤ 102)

/-- The hexadecimal digit character of a nibble value: code 48 plus the
value when it is below ten, code 87 plus the value otherwise. -/
def chiffreHex (n : Nat) : Char :=
  if n < 10 then Char.ofNat (48 + n) else Char.ofNat (87 + n)

/-- The 8 hexadecimal characters of a 32-bit word (most significant first). -/
def hexMot (n : Nat) : List Char :=
  [chiffreHex ((n >>> 28) % 16), chiffreHex ((n >>> 24) % 16), chiffreHex ((n >>> 20) % 16),
   chiffreHex ((n >>> 16) % 16), chiffreHex ((n >>> 12) % 16), chiffreHex ((n >>> 8) % 16),
   chiffreHex ((n >>> 4) % 16), chiffreHex (n % 16)]

/-- The hexadecimal rendering of a hash value, as in `hexdigest()`. -/
def hexDigest (h : MotsHachage) : String :=
  String.mk (hexMot h.m0 ++ hexMot h.m1 ++ hexMot h.m2 ++ hexMot h.m3 ++
    hexMot h.m4 ++ hexMot h.m5 ++ hexMot h.m6 ++ hexMot h.m7)

/-- UTF-8 bytes of one character, as produced by the Python `str.encode()`. -/
def octetsDeCaractere (c : Char) : List Nat :=
  let n := c.toNat
  if n < 128 then [n]
  else if n < 2048 then [192 + n / 64, 128 + n % 64]
  else if n < 65536 then [224 + n / 4096, 128 + (n / 64) % 64, 128 + n % 64]
  else [240 + n / 262144, 128 + (n / 4096) % 64, 128 + (n / 64) % 64, 128 + n % 64]

/-- UTF-8 bytes of a string (`mot_de_passe.encode()`). -/
def octetsDeChaine (s : String) : List Nat :=
  (s.data.map octetsDeCaractere).flatten

/-- `utilitaires.hacher_mot_de_passe`: SHA-256 hex digest of the UTF-8
encoded plaintext. -/
def hacher_mot_de_passe (mot_de_passe : String) : String :=
  hexDigest (sha256 (octetsDeChaine mot_de_passe))

/-! ## Data model and persistence (`gestionnaire_donnees`) -/

/-- A property record, the five fields written by `ajouter_propriete`.
Prices are Python floats, modelled as rationals; counts are Python ints. -/
structure Propriete where
  prix : ℚ
  ville : String
  type : String
  chambres : ℤ
  salles_de_bains : ℤ
deriving DecidableEq

/-- The persistent state: content of the three backing files.  `none`
models a file that does not exist. -/
structure Etat where
  fichierUtilisateurs : Option (List (String × String))
  fichierProprietes : Option (List Propriete)
  fichierSession : Option String
deriving DecidableEq

/-- `charger_utilisateurs`: read the user mapping, an absent file giving
the empty mapping. -/
def charger_utilisateurs (e : Etat) : List (String × String) :=
  e.fichierUtilisateurs.getD []

/-- `sauvegarder_utilisateurs`: overwrite the user file with the mapping. -/
def sauvegarder_utilisateurs (utilisateurs : List (String × String)) (e : Etat) : Etat :=
  { e with fichierUtilisateurs := some utilisateurs }

/-- `charger_proprietes`: read the property sequence, an absent file
giving the empty sequence. -/
def charger_proprietes (e : Etat) : List Propriete :=
  e.fichierProprietes.getD []

/-- `sauvegarder_propriete`: load the sequence (absent file read as
empty), append the new record, overwrite the file. -/
def sauvegarder_propriete (nouvelle_propriete : Propriete) (e : Etat) : Etat :=
  let proprietes := e.fichierProprietes.getD []
  { e with fichierProprietes := some (proprietes ++ [nouvelle_propriete]) }

/-- Python dict assignment `d[k] = v` on the association-list model:
replace the binding when the key is present, append it otherwise. -/
def majDict : List (String × String) → String → String → List (String × String)
  | [], k, v => [(k, v)]
  | (k2, v2) :: reste, k, v =>
      if k2 = k then (k, v) :: reste else (k2, v2) :: majDict reste k v

/-! ## Session and accounts (`gestionnaire_utilisateurs`) -/

/-- `recuperer_utilisateur_courant`: absent session file gives `none`; a
file whose stripped content is empty gives `none`; otherwise the source
returns `f.read().strip()` where this second `f.read()` runs on the file
already consumed by the first read and hence yields the empty string. -/
def recuperer_utilisateur_courant (e : Etat) : Option String :=
  match e.fichierSession with
  | none => none
  | some contenu =>
      if pyStrip contenu = "" then none
      else some (pyStrip "")

/-- `definir_utilisateur_courant`: overwrite the session file with the name. -/
def definir_utilisateur_courant (nom_utilisateur : String) (e : Etat) : Etat :=
  { e with fichierSession := some nom_utilisateur }

/-- `vider_session`: overwrite the session file with the empty string. -/
def vider_session (e : Etat) : Etat :=
  { e with fichierSession := some "" }

/-- `utilisateur_est_connecte`: the current-user query returned a value. -/
def utilisateur_est_connecte (e : Etat) : Bool :=
  (recuperer_utilisateur_courant e).isSome

/-- Outcome of `creer_compte`, reported through printed messages. -/
inductive ResultatCreation
  | succes
  | utilisateurExistant
deriving DecidableEq

/-- `creer_compte` with the two `input()` lines passed as parameters:
strip the username, refuse when it is already a key of the mapping,
otherwise store the hash of the stripped password and save. -/
def creer_compte (nom mdp : String) (e : Etat) : Etat × ResultatCreation :=
  let utilisateurs := charger_utilisateurs e
  let nom_utilisateur := pyStrip nom
  if (utilisateurs.lookup nom_utilisateur).isSome then
    (e, ResultatCreation.utilisateurExistant)
  else
    let mot_de_passe := pyStrip mdp
    (sauvegarder_utilisateurs (majDict utilisateurs nom_utilisateur
      (hacher_mot_de_passe mot_de_passe)) e, ResultatCreation.succes)

/-- Outcome of `se_connecter`, reported through printed messages. -/
inductive ResultatConnexion
  | succes
  | identifiantsInvalides
deriving DecidableEq

/-- `se_connecter` with the two `input()` lines passed as parameters:
strip both, compare the stored digest of the stripped username with the
hash of the stripped password, and on equality write the stripped
username to the session file. -/
def se_connecter (nom mdp : String) (e : Etat) : Etat × ResultatConnexion :=
  let utilisateurs := charger_utilisateurs e
  let nom_utilisateur := pyStrip nom
  let mot_de_passe := pyStrip mdp
  let mot_de_passe_hache := hacher_mot_de_passe mot_de_passe
  if utilisateurs.lookup nom_utilisateur = some mot_de_passe_hache then
    (definir_utilisateur_courant nom_utilisateur e, ResultatConnexion.succes)
  else
    (e, ResultatConnexion.identifiantsInvalides)

/-- `se_deconnecter`: clear the session. -/
def se_deconnecter (e : Etat) : Etat :=
  vider_session e

/-! ## Properties (`gestionnaire_proprietes`) -/

/-- Outcome of `ajouter_propriete`, reported through printed messages. -/
inductive ResultatAjout
  | succes
  | nonConnecte
deriving DecidableEq

/-- `ajouter_propriete` with the record built from the prompts passed as
a parameter: refuse when the current-user query yields a falsy value,
otherwise append the record through `sauvegarder_propriete`. -/
def ajouter_propriete (p : Propriete) (e : Etat) : Etat × ResultatAjout :=
  let utilisateur := recuperer_utilisateur_courant e
  if pyVraiOptStr utilisateur = false then
    (e, ResultatAjout.nonConnecte)
  else
    (sauvegarder_propriete p e, ResultatAjout.succes)

/-- The four filter criteria as collected by `filtrer_proprietes`: the
city is the stripped input line (empty when left blank); each numeric
criterion is `none` when the input line was left blank, and the parsed
number otherwise. -/
structure Criteres where
  ville : String
  prix_min : Option ℚ
  prix_max : Option ℚ
  chambres : Option ℤ
deriving DecidableEq

/-- The `continue` guard for the city criterion. -/
def rejetteVille (c : Criteres) (p : Propriete) : Bool :=
  !(c.ville = "") && !(p.ville = c.ville)

/-- The `continue` guard for the minimum price: the converted value must
be truthy (nonzero) and the property price strictly below it. -/
def rejettePrixMin (c : Criteres) (p : Propriete) : Bool :=
  match c.prix_min with
  | none => false
  | some v => !(v = 0) && decide (p.prix < v)

/-- The `continue` guard for the maximum price. -/
def rejettePrixMax (c : Criteres) (p : Propriete) : Bool :=
  match c.prix_max with
  | none => false
  | some v => !(v = 0) && decide (p.prix > v)

/-- The `continue` guard for the minimum bedroom count. -/
def rejetteChambres (c : Criteres) (p : Propriete) : Bool :=
  match c.chambres with
  | none => false
  | some v => !(v = 0) && decide (p.chambres < v)

/-- A property survives the loop body when no guard fires. -/
def correspondCriteres (c : Criteres) (p : Propriete) : Bool :=
  !rejetteVille c p && !rejettePrixMin c p && !rejettePrixMax c p && !rejetteChambres c p

/-- `filtrer_proprietes` restricted to its loop: keep the properties no
guard rejects, in order. -/
def filtrer_proprietes (c : Criteres) (proprietes : List Propriete) : List Propriete :=
  proprietes.filter (correspondCriteres c)

/-! ## Abstract session state (spec section 4.3) -/

/-- The two states of the session state machine of the spec. -/
inductive EtatSession
  | anonyme
  | authentifie (nom : String)
deriving DecidableEq

/-- The session state denoted by the session file: absent or empty means
anonymous, any other content is the authenticated username. -/
def etatSession (e : Etat) : EtatSession :=
  match e.fichierSession with
  | none => EtatSession.anonyme
  | some s => if s = "" then EtatSession.anonyme else EtatSession.authentifie s

/-! ## Spec-side filter predicates (for the refinement claim C3) -/

/-- Modelled from the spec, claim C3 reading: a property satisfies every
supplied criterion — city equal when a city is supplied, price between
the inclusive bounds when supplied, bedrooms at least the minimum when
supplied; an omitted criterion imposes no constraint. -/
def satisfaitCriteresSpec (c : Criteres) (p : Propriete) : Bool :=
  (c.ville = "" || p.ville = c.ville) &&
  (match c.prix_min with | none => true | some v => decide (v ≤ p.prix)) &&
  (match c.prix_max with | none => true | some v => decide (p.prix ≤ v)) &&
  (match c.chambres with | none => true | some v => decide (v ≤ p.chambres))

/-- Modelled from the spec, amended reading of claim C3: as above, except
that a supplied numeric criterion whose value is exactly zero imposes no
constraint (treated as not supplied). -/
def satisfaitCriteresAmende (c : Criteres) (p : Propriete) : Bool :=
  (c.ville = "" || p.ville = c.ville) &&
  (match c.prix_min with | none => true | some v => (v = 0) || decide (v ≤ p.prix)) &&
  (match c.prix_max with | none => true | some v => (v = 0) || decide (p.prix ≤ v)) &&
  (match c.chambres with | none => true | some v => (v = 0) || decide (v ≤ p.chambres))

/-! ## Helper lemmas -/

/-- The survivor predicate of the source loop agrees pointwise with the
amended spec predicate. -/
theorem correspond_eq_amende (c : Criteres) (p : Propriete) :
    correspondCriteres c p = satisfaitCriteresAmende c p := by
  rcases c with ⟨v, pmin, pmax, ch⟩
  rcases pmin with _ | a <;> rcases pmax with _ | b <;> rcases ch with _ | d <;>
    · rw [Bool.eq_iff_iff]
      simp [correspondCriteres, satisfaitCriteresAmende, rejetteVille, rejettePrixMin,
        rejettePrixMax, rejetteChambres, not_lt]

/-- The hex rendering of a 32-bit word has 8 characters. -/
theorem hexMot_length (n : Nat) : (hexMot n).length = 8 := rfl

/-- The digit character of a nibble value is a hexadecimal digit. -/
theorem chiffreHex_est (n : Nat) (hn : n < 16) : estChiffreHex (chiffreHex n) = true := by
  interval_cases n <;> decide

/-- Every character of the hex rendering of a word is a hex digit. -/
theorem hexMot_mem (n : Nat) : ∀ c ∈ hexMot n, estChiffreHex c = true := by
  intro c hc
  simp only [hexMot, List.mem_cons, List.not_mem_nil, or_false] at hc
  rcases hc with h | h | h | h | h | h | h | h <;>
    exact h ▸ chiffreHex_est _ (Nat.mod_lt _ (by norm_num))

/-- A hex digest has 64 characters. -/
theorem hexDigest_length (h : MotsHachage) : (hexDigest h).length = 64 := by
  simp [hexDigest, String.length, hexMot]

/-- Every character of a hex digest is a hex digit. -/
theorem hexDigest_mem (h : MotsHachage) : ∀ c ∈ (hexDigest h).data, estChiffreHex c = true := by
  intro c hc
  have : (hexDigest h).data = hexMot h.m0 ++ hexMot h.m1 ++ hexMot h.m2 ++ hexMot h.m3 ++
      hexMot h.m4 ++ hexMot h.m5 ++ hexMot h.m6 ++ hexMot h.m7 := rfl
  rw [this] at hc
  simp only [List.mem_append] at hc
  rcases hc with ((((((h0 | h1) | h2) | h3) | h4) | h5) | h6) | h7 <;>
    exact hexMot_mem _ _ (by assumption)

/-- Looking up the key just assigned in the dict model yields the value. -/
theorem lookup_majDict (l : List (String × String)) (k v : String) :
    (majDict l k v).lookup k = some v := by
  induction l with
  | nil => simp [majDict, List.lookup]
  | cons kv reste ih =>
      rcases kv with ⟨k2, v2⟩
      by_cases h : k2 = k
      · simp [majDict, h, List.lookup]
      · have h2 : (k == k2) = false := beq_eq_false_iff_ne.mpr (Ne.symm h)
        simp [majDict, h, List.lookup, h2, ih]

/-- Unfolding of a successful login. -/
theorem se_connecter_reussie (e : Etat) (nom mdp : String)
    (h : (charger_utilisateurs e).lookup (pyStrip nom) =
      some (hacher_mot_de_passe (pyStrip mdp))) :
    se_connecter nom mdp e =
      (definir_utilisateur_courant (pyStrip nom) e, ResultatConnexion.succes) := by
  simp [se_connecter, h]

/-- Unfolding of a failed login. -/
theorem se_connecter_echouee (e : Etat) (nom mdp : String)
    (h : (charger_utilisateurs e).lookup (pyStrip nom) ≠
      some (hacher_mot_de_passe (pyStrip mdp))) :
    se_connecter nom mdp e = (e, ResultatConnexion.identifiantsInvalides) := by
  simp [se_connecter, h]

/-! ## Claim theorems -/

/-- Claim C1, evaluation at the failing input: with the session file
holding the non-empty username alice, the current-user query of the code
returns the empty string (the second read of the already consumed file),
not alice, although the session state is authenticated alice. -/
theorem claim_C1_bug :
    recuperer_utilisateur_courant ⟨none, none, some "alice"⟩ = some "" ∧
    etatSession ⟨none, none, some "alice"⟩ = EtatSession.authentifie "alice" ∧
    recuperer_utilisateur_courant ⟨none, none, some "alice"⟩ ≠ some "alice" := by
  decide

/-- Claim C2, evaluation at the failing input: although the session file
holds the username alice (authenticated state), the add-property
operation of the code refuses with the not-connected outcome and leaves
the state unchanged, because the current-user query returned the falsy
empty string. -/
theorem claim_C2_bug :
    ajouter_propriete ⟨100, "Québec", "Maison", 2, 1⟩ ⟨some [], some [], some "alice"⟩ =
      (⟨some [], some [], some "alice"⟩, ResultatAjout.nonConnecte) ∧
    etatSession ⟨some [], some [], some "alice"⟩ = EtatSession.authentifie "alice" := by
  decide

/-- Claim C3, counterexample to the claim as stated: with the single
supplied criterion maxPrice zero and a property of price 100, the code
includes the property although it violates the supplied inclusive upper
bound, so the filter does not include a property exactly when it
satisfies every supplied criterion. -/
theorem claim_C3_contre :
    filtrer_proprietes ⟨"", none, some 0, none⟩ [⟨100, "Québec", "Maison", 2, 1⟩] =
      [⟨100, "Québec", "Maison", 2, 1⟩] ∧
    List.filter (satisfaitCriteresSpec ⟨"", none, some 0, none⟩) [⟨100, "Québec", "Maison", 2, 1⟩] =
      [] := by
  decide

/-- Claim C3 as amended: the filter keeps exactly the properties that
satisfy every supplied criterion, where a supplied numeric criterion
whose value is exactly zero imposes no constraint, an omitted criterion
imposes no constraint, and with no criteria supplied every property is
returned. -/
theorem claim_C3_amende (c : Criteres) (props : List Propriete) :
    filtrer_proprietes c props = props.filter (satisfaitCriteresAmende c) ∧
    filtrer_proprietes ⟨"", none, none, none⟩ props = props := by
  constructor
  · exact List.filter_congr fun p _ => correspond_eq_amende c p
  · apply List.filter_eq_self.mpr
    intro p _
    simp [correspondCriteres, rejetteVille, rejettePrixMin, rejettePrixMax, rejetteChambres]

/-- Claim C4: a numeric filter criterion supplied as exactly zero gives
the same filter result as that criterion omitted, for each of the three
numeric criteria. -/
theorem claim_C4 (c : Criteres) (props : List Propriete) :
    filtrer_proprietes { c with prix_min := some 0 } props =
      filtrer_proprietes { c with prix_min := none } props ∧
    filtrer_proprietes { c with prix_max := some 0 } props =
      filtrer_proprietes { c with prix_max := none } props ∧
    filtrer_proprietes { c with chambres := some 0 } props =
      filtrer_proprietes { c with chambres := none } props := by
  refine ⟨?_, ?_, ?_⟩ <;>
    · apply List.filter_congr
      intro p _
      simp [correspondCriteres, rejetteVille, rejettePrixMin, rejettePrixMax, rejetteChambres]

/-- Claim C5, counterexample to the claim as stated: with the empty
username registered, login with the empty username and its correct
password finds a matching stored digest and reports success, yet the
session remains anonymous (the code writes the empty string, the
no-session marker, to the session file) instead of transitioning to the
authenticated state. -/
theorem claim_C5_contre :
    (se_connecter "" "x" ⟨some [("", hacher_mot_de_passe "x")], none, some ""⟩).2 =
      ResultatConnexion.succes ∧
    List.lookup (pyStrip "")
      (charger_utilisateurs ⟨some [("", hacher_mot_de_passe "x")], none, some ""⟩) =
      some (hacher_mot_de_passe (pyStrip "x")) ∧
    etatSession (se_connecter "" "x" ⟨some [("", hacher_mot_de_passe "x")], none, some ""⟩).1 =
      EtatSession.anonyme := by
  have h : (charger_utilisateurs
      (⟨some [("", hacher_mot_de_passe "x")], none, some ""⟩ : Etat)).lookup (pyStrip "") =
      some (hacher_mot_de_passe (pyStrip "x")) := rfl
  refine ⟨?_, h, ?_⟩
  · rw [se_connecter_reussie _ _ _ h]
  · rw [se_connecter_reussie _ _ _ h]
    rfl

/-- Claim C5 as amended: login strips both inputs; when the stored digest
for the stripped username equals the hash of the stripped password the
outcome is success and the stripped username is written to the session
file, which is the authenticated state exactly when the stripped
username is non-empty and the anonymous state when it is empty;
otherwise (wrong password and unknown username alike, one
indistinguishable outcome) the state is left unchanged, so an anonymous
session stays anonymous. -/
theorem claim_C5_amende (e : Etat) (nom mdp : String) :
    ((charger_utilisateurs e).lookup (pyStrip nom) =
        some (hacher_mot_de_passe (pyStrip mdp)) →
      (se_connecter nom mdp e).2 = ResultatConnexion.succes ∧
      (se_connecter nom mdp e).1.fichierSession = some (pyStrip nom) ∧
      etatSession (se_connecter nom mdp e).1 =
        (if pyStrip nom = "" then EtatSession.anonyme
         else EtatSession.authentifie (pyStrip nom))) ∧
    ((charger_utilisateurs e).lookup (pyStrip nom) ≠
        some (hacher_mot_de_passe (pyStrip mdp)) →
      (se_connecter nom mdp e).2 = ResultatConnexion.identifiantsInvalides ∧
      (se_connecter nom mdp e).1 = e) := by
  constructor
  · intro h
    rw [se_connecter_reussie e nom mdp h]
    exact ⟨rfl, rfl, rfl⟩
  · intro h
    rw [se_connecter_echouee e nom mdp h]
    exact ⟨rfl, rfl⟩

/-- Witness for the amended claim C5 at a concrete input. -/
theorem claim_C5_temoin :
    (se_connecter "alice" "mdp" ⟨some [("alice", hacher_mot_de_passe "mdp")], none, some ""⟩).2 =
      ResultatConnexion.succes ∧
    (se_connecter "alice" "mdp"
        ⟨some [("alice", hacher_mot_de_passe "mdp")], none, some ""⟩).1.fichierSession =
      some (pyStrip "alice") ∧
    etatSession (se_connecter "alice" "mdp"
        ⟨some [("alice", hacher_mot_de_passe "mdp")], none, some ""⟩).1 =
      (if pyStrip "alice" = "" then EtatSession.anonyme
       else EtatSession.authentifie (pyStrip "alice")) :=
  (claim_C5_amende ⟨some [("alice", hacher_mot_de_passe "mdp")], none, some ""⟩
    "alice" "mdp").1 rfl

/-- Claim C6, counterexample to the claim as stated: with the mapping
holding the single username a, registering the username a followed by a
space fails with the duplicate outcome and changes nothing, although
that username is not present in the mapping (the code strips the input
before the membership test). -/
theorem claim_C6_contre :
    creer_compte "a " "x" ⟨some [("a", "d")], none, none⟩ =
      (⟨some [("a", "d")], none, none⟩, ResultatCreation.utilisateurExistant) ∧
    List.lookup "a " [("a", "d")] = none := by
  decide

/-- Claim C6 as amended: registration strips both inputs; when the
stripped username is already a key of the mapping it fails with the
duplicate outcome and leaves the whole state (mapping, properties,
session) unchanged; when it is absent, the hash of the stripped password
is stored under the stripped username and the property and session
stores are unchanged, so registration never implies login. -/
theorem claim_C6_amende (e : Etat) (nom mdp : String) :
    (((charger_utilisateurs e).lookup (pyStrip nom)).isSome = true →
      creer_compte nom mdp e = (e, ResultatCreation.utilisateurExistant)) ∧
    (((charger_utilisateurs e).lookup (pyStrip nom)).isSome = false →
      (creer_compte nom mdp e).2 = ResultatCreation.succes ∧
      (creer_compte nom mdp e).1.fichierUtilisateurs =
        some (majDict (charger_utilisateurs e) (pyStrip nom)
          (hacher_mot_de_passe (pyStrip mdp))) ∧
      (charger_utilisateurs (creer_compte nom mdp e).1).lookup (pyStrip nom) =
        some (hacher_mot_de_passe (pyStrip mdp)) ∧
      (creer_compte nom mdp e).1.fichierProprietes = e.fichierProprietes ∧
      (creer_compte nom mdp e).1.fichierSession = e.fichierSession) := by
  constructor
  · intro h
    simp [creer_compte, h]
  · intro h
    simp only [charger_utilisateurs] at h
    simp [creer_compte, charger_utilisateurs, h, sauvegarder_utilisateurs, lookup_majDict]

/-- Witness for the amended claim C6 at a concrete input. -/
theorem claim_C6_temoin :
    creer_compte "bob" "x" ⟨some [("bob", "d")], none, none⟩ =
      (⟨some [("bob", "d")], none, none⟩, ResultatCreation.utilisateurExistant) :=
  (claim_C6_amende ⟨some [("bob", "d")], none, none⟩ "bob" "x").1 rfl

/-- Claim C7: logout writes the empty marker, so every state is sent to
the anonymous session state, logout is idempotent, and the
is-authenticated query is false after one and after two calls. -/
theorem claim_C7 (e : Etat) :
    etatSession (se_deconnecter e) = EtatSession.anonyme ∧
    se_deconnecter (se_deconnecter e) = se_deconnecter e ∧
    utilisateur_est_connecte (se_deconnecter e) = false ∧
    utilisateur_est_connecte (se_deconnecter (se_deconnecter e)) = false :=
  ⟨rfl, rfl, rfl, rfl⟩

/-- Claim C8: the property append stores exactly the previously stored
sequence (empty when the file is absent) with the new record at the end,
and leaves the user and session stores untouched. -/
theorem claim_C8 (e : Etat) (p : Propriete) :
    (sauvegarder_propriete p e).fichierProprietes =
      some (charger_proprietes e ++ [p]) ∧
    (sauvegarder_propriete p e).fichierUtilisateurs = e.fichierUtilisateurs ∧
    (sauvegarder_propriete p e).fichierSession = e.fichierSession :=
  ⟨rfl, rfl, rfl⟩

/-- Claim C9: the password hash is deterministic, and for every plaintext
the digest has exactly 64 characters, each one of the 16 lowercase
hexadecimal digits. -/
theorem claim_C9 (s t : String) :
    (s = t → hacher_mot_de_passe s = hacher_mot_de_passe t) ∧
    (hacher_mot_de_passe s).length = 64 ∧
    ∀ c ∈ (hacher_mot_de_passe s).data, estChiffreHex c = true :=
  ⟨fun h => h ▸ rfl, hexDigest_length _, hexDigest_mem _⟩

/-- Witness for claim C9 at a concrete input. -/
theorem claim_C9_temoin :
    hacher_mot_de_passe "secret" = hacher_mot_de_passe "secret" ∧
    (hacher_mot_de_passe "secret").length = 64 :=
  ⟨(claim_C9 "secret" "secret").1 rfl, (claim_C9 "secret" "secret").2.1⟩

/-- Claim C10: when a backing store is absent, each load operation
returns its empty default: the empty user mapping, the empty property
sequence, and no current user. -/
theorem claim_C10 (e : Etat) :
    (e.fichierUtilisateurs = none → charger_utilisateurs e = []) ∧
    (e.fichierProprietes = none → charger_proprietes e = []) ∧
    (e.fichierSession = none → recuperer_utilisateur_courant e = none) := by
  refine ⟨fun h => ?_, fun h => ?_, fun h => ?_⟩ <;>
    simp [charger_utilisateurs, charger_proprietes, recuperer_utilisateur_courant, h]

/-- Witness for claim C10 at the state with all three files absent. -/
theorem claim_C10_temoin :
    charger_utilisateurs ⟨none, none, none⟩ = [] ∧
    charger_proprietes ⟨none, none, none⟩ = [] ∧
    recuperer_utilisateur_courant ⟨none, none, none⟩ = none :=
  ⟨(claim_C10 ⟨none, none, none⟩).1 rfl, (claim_C10 ⟨none, none, none⟩).2.1 rfl,
   (claim_C10 ⟨none, none, none⟩).2.2 rfl⟩
